import Mathlib

/-!
Verification of the causal-inference core of the UmeBot backend
(`backend/app/fixed_causal_inference.py`).

The Python code operates on pandas DataFrames.  We shallowly embed the
relevant fragments: a DataFrame column is a `List` of cell values, cell
values are modelled by `PyVal` (string / numeric / datetime / NaN),
machine floats are modelled by exact rationals `ℚ`, and the external
statistical-estimation library (econml's `LinearDML`) is modelled by an
oracle `FitOutcome` describing what its `fit`/`ate`/`ate_interval` calls
return (or that they raise), since the spec treats it as an external
collaborator.
-/

namespace UmeBot

/-- A pandas cell value: a Python string, a numeric value (ints, floats and
`decimal.Decimal` all become numbers), a parsed timestamp (represented by its
source text), or a missing value (`NaN`/`NaT`). -/
inductive PyVal where
  | vstr (s : String)
  | vnum (q : ℚ)
  | vdate (s : String)
  | vnan
deriving DecidableEq, Repr

/-- Digits-to-number accumulator (junk value 0 on the empty list). -/
def natOfDigits (cs : List Char) : ℕ :=
  List.foldl (fun a c => a * 10 + (c.toNat - 48)) 0 cs

/-- Unsigned decimal literal parser: `123`, `123.45`, `.5`, `5.`. -/
def parseUnsigned (cs : List Char) : Option ℚ :=
  let ip := cs.takeWhile Char.isDigit
  let rest := cs.dropWhile Char.isDigit
  match rest with
  | [] => if ip.isEmpty then none else some (natOfDigits ip : ℚ)
  | '.' :: fp =>
      if fp.all Char.isDigit && !(ip.isEmpty && fp.isEmpty) then
        some ((natOfDigits ip : ℚ) + (natOfDigits fp : ℚ) / (10 : ℚ) ^ fp.length)
      else none
  | _ => none

/-- Model of `pd.to_numeric(·, errors="coerce")` on a single string cell:
plain decimal literals (optionally signed, surrounding whitespace stripped)
parse to their exact value, everything else coerces to missing. -/
def parseDec (s : String) : Option ℚ :=
  match s.trim.data with
  | '-' :: rest => (parseUnsigned rest).map Neg.neg
  | '+' :: rest => parseUnsigned rest
  | cs => parseUnsigned cs

/-- Cell-level model of `pd.to_numeric(col, errors="coerce")` (also covering
the `decimal.Decimal` branch of `_force_numeric`, since `Decimal` cells are
already `vnum`): numbers stay, parseable strings become numbers, everything
else becomes `NaN`.  The analysis columns are never datetime-typed in this
pipeline, so `vdate` coerces to `NaN`. -/
def toNumeric : PyVal → PyVal
  | .vnum q => .vnum q
  | .vstr s =>
      match parseDec s with
      | some q => .vnum q
      | none => .vnan
  | .vdate _ => .vnan
  | .vnan => .vnan

/-- Cell-level model of `pd.to_datetime`: date text parses to a timestamp
(represented by its text), timestamps stay, numbers are interpreted as epoch
offsets (represented by their printed form), `NaN` becomes `NaT`. -/
def toDatetime : PyVal → PyVal
  | .vstr s => .vdate s
  | .vdate s => .vdate s
  | .vnum q => .vdate (toString q)
  | .vnan => .vnan

/-- The numeric value of a cell after coercion, `none` meaning the cell is
missing afterwards (and hence dropped by `dropna`). -/
def coerceCell (v : PyVal) : Option ℚ :=
  match toNumeric v with
  | .vnum q => some q
  | _ => none

/-- Mean of a list of rationals, as pandas `Series.mean` (Lean's junk value
`0` stands for the `NaN` that pandas returns on an empty series; no claim in
this development depends on the empty case). -/
def meanQ (l : List ℚ) : ℚ := l.sum / (l.length : ℚ)

/-! ## Factor effect estimator: `_analyze_single_factor_econml`
(`fixed_causal_inference.py` lines 788-852). -/

/-- One input panel row restricted to the analysis columns
`[treatment, total_revenue] ++ confounders` (the confounder list has one
entry per confounder column). -/
structure FactorRow where
  treatment : PyVal
  total_revenue : PyVal
  confounders : List PyVal
deriving DecidableEq, Repr

/-- A row after `_force_numeric(...).dropna(subset=analysis_cols)`:
every analysis cell carries an actual number. -/
structure CleanRow where
  treatment : ℚ
  total_revenue : ℚ
  confounders : List ℚ
deriving DecidableEq, Repr

/-- Coerce every cell of a row's confounder list; `none` as soon as one
cell is missing after coercion. -/
def coerceAll : List PyVal → Option (List ℚ)
  | [] => some []
  | v :: vs =>
      match coerceCell v, coerceAll vs with
      | some q, some qs => some (q :: qs)
      | _, _ => none

/-- Coerce one row's analysis cells; `none` iff some cell is missing after
coercion, in which case `dropna` drops the row. -/
def rowClean (r : FactorRow) : Option CleanRow :=
  match coerceCell r.treatment, coerceCell r.total_revenue,
        coerceAll r.confounders with
  | some t, some y, some cs => some ⟨t, y, cs⟩
  | _, _, _ => none

/-- `self._force_numeric(df, analysis_cols).dropna(subset=analysis_cols)`. -/
def cleanRows (rows : List FactorRow) : List CleanRow :=
  rows.filterMap rowClean

/-- The effect result dictionary returned on the success path. -/
structure EffectResult where
  ate : ℚ
  ci_lower : ℚ
  ci_upper : ℚ
  treatment_rate : ℚ
  treatment_group_mean : ℚ
  control_group_mean : ℚ
  sample_size : ℕ
  significant : Bool
deriving DecidableEq, Repr

/-- Oracle for the external estimation library (econml `LinearDML`): the
whole `try` block either raises somewhere (`raises`), or the fitted model
yields an ATE and `ate_interval` either returns a CI (`some`) or raises
(`none`, triggering the approximate-CI fallback). -/
inductive FitOutcome where
  | raises (msg : String)
  | returns (ate : ℚ) (ci : Option (ℚ × ℚ))
deriving DecidableEq, Repr

/-- The three possible shapes of the returned dictionary: the
insufficient-data error `{'error': '数据不足', 'sample_size': n}` (which
carries no effect estimate), the exception path `{'error': str(e)}`, or a
full effect result. -/
inductive EffectOutcome where
  | insufficientData (sample_size : ℕ)
  | estimationFailure (msg : String)
  | ok (r : EffectResult)
deriving DecidableEq, Repr

/-- The approximate interval `(ate - 1.96*abs(ate)*0.1, ate +
1.96*abs(ate)*0.1)` used when `ate_interval` raises. -/
def fallbackCI (ate : ℚ) : ℚ × ℚ :=
  (ate - 1.96 * |ate| * 0.1, ate + 1.96 * |ate| * 0.1)

/-- The success-path result dictionary of `_analyze_single_factor_econml`,
assembled from the cleaned panel, the ATE and the confidence interval;
`significant = not (ci_lower <= 0 <= ci_upper)`. -/
def buildEffectResult (clean_df : List CleanRow) (ate : ℚ) (ciPair : ℚ × ℚ) :
    EffectResult :=
  let treated := clean_df.filter (fun r => decide (r.treatment = 1))
  let control := clean_df.filter (fun r => decide (r.treatment = 0))
  { ate := ate,
    ci_lower := ciPair.1,
    ci_upper := ciPair.2,
    treatment_rate := meanQ (clean_df.map (fun r => r.treatment)),
    treatment_group_mean := meanQ (treated.map (fun r => r.total_revenue)),
    control_group_mean := meanQ (control.map (fun r => r.total_revenue)),
    sample_size := clean_df.length,
    significant := decide (¬ (ciPair.1 ≤ 0 ∧ 0 ≤ ciPair.2)) }

/-- Shallow embedding of `_analyze_single_factor_econml`: clean the analysis
columns and drop incomplete rows; gate on 50 cleaned rows; then ask the
external estimator (the oracle), fall back to `fallbackCI` when
`ate_interval` raises, and assemble the result dictionary. -/
def analyzeSingleFactorEconml (rows : List FactorRow) (fit : FitOutcome) :
    EffectOutcome :=
  if (cleanRows rows).length < 50 then
    .insufficientData (cleanRows rows).length
  else
    match fit with
    | .raises msg => .estimationFailure msg
    | .returns ate ci =>
        .ok (buildEffectResult (cleanRows rows) ate (ci.getD (fallbackCI ate)))

/-! ## Interaction analyzer: `_calculate_interaction_effect`
(`fixed_causal_inference.py` lines 874-911). -/

/-- One panel row restricted to the two factor columns and the outcome.
The factor columns hold the numeric values the code compares against the
literals `0` and `1`. -/
structure IRow where
  f1 : ℚ
  f2 : ℚ
  total_revenue : ℚ
deriving DecidableEq, Repr

/-- `df[(df[factor1] == val1) & (df[factor2] == val2)]`. -/
def interactionCell (rows : List IRow) (v1 v2 : ℚ) : List IRow :=
  rows.filter (fun r => decide (r.f1 = v1) && decide (r.f2 = v2))

/-- The interaction result dictionary (the four `group_details` entries are
kept as (mean revenue, count) pairs; the Chinese display name is carried
through unchanged). -/
structure InteractionResult where
  interaction_effect : ℚ
  factor1_main_effect : ℚ
  factor2_main_effect : ℚ
  combined_effect : ℚ
  g00 : ℚ × ℕ
  g10 : ℚ × ℕ
  g01 : ℚ × ℕ
  g11 : ℚ × ℕ
  name : String
deriving DecidableEq, Repr

/-- Result of `_calculate_interaction_effect`: the full breakdown, or the
`{'error': '数据不足', 'name': name}` marker when some cell has too few
rows (the embedded body is total, so the `except` branch is unreachable). -/
inductive InteractionOutcome where
  | ok (r : InteractionResult)
  | insufficientData (name : String)
deriving DecidableEq, Repr

/-- Shallow embedding of `_calculate_interaction_effect`: a cell enters the
`results` dictionary only when its count exceeds 5; with all four cells
present, effects are differences of cell means against the (0,0) baseline. -/
def calculateInteractionEffect (rows : List IRow) (name : String) :
    InteractionOutcome :=
  let c00 := interactionCell rows 0 0
  let c10 := interactionCell rows 1 0
  let c01 := interactionCell rows 0 1
  let c11 := interactionCell rows 1 1
  if 5 < c00.length ∧ 5 < c10.length ∧ 5 < c01.length ∧ 5 < c11.length then
    let baseline := meanQ (c00.map (fun r => r.total_revenue))
    let m10 := meanQ (c10.map (fun r => r.total_revenue))
    let m01 := meanQ (c01.map (fun r => r.total_revenue))
    let m11 := meanQ (c11.map (fun r => r.total_revenue))
    .ok
      { interaction_effect := (m11 - baseline) - (m10 - baseline) - (m01 - baseline),
        factor1_main_effect := m10 - baseline,
        factor2_main_effect := m01 - baseline,
        combined_effect := m11 - baseline,
        g00 := (baseline, c00.length),
        g10 := (m10, c10.length),
        g01 := (m01, c01.length),
        g11 := (m11, c11.length),
        name := name }
  else
    .insufficientData name

/-! ## Heterogeneity analyzer: `_analyze_heterogeneity`
(`fixed_causal_inference.py` lines 913-965). -/

/-- One panel row for the per-store breakdown.  `has_promotion` is the 0/1
indicator column created by `_create_promotion_features`
(`(total_discount > 0).astype(int)`), embedded as a `Bool`; summing the
column counts the promoted rows. -/
structure SRow where
  location_id : ℕ
  has_promotion : Bool
  total_revenue : ℚ
deriving DecidableEq, Repr

/-- The per-slice dictionary `{effect, treated_mean, control_mean,
sample_size}`. -/
structure SliceEffect where
  effect : ℚ
  treated_mean : ℚ
  control_mean : ℚ
  sample_size : ℕ
deriving DecidableEq, Repr

/-- `df['location_id'].unique()`: distinct values in order of first
occurrence (`seen` accumulates the values already emitted). -/
def uniqueFirstAux : List ℕ → List ℕ → List ℕ
  | [], _ => []
  | a :: l, seen =>
      if a ∈ seen then uniqueFirstAux l seen
      else a :: uniqueFirstAux l (a :: seen)

def uniqueFirst (l : List ℕ) : List ℕ := uniqueFirstAux l []

/-- `df[df['location_id'] == store_id]`. -/
def storeRows (rows : List SRow) (sid : ℕ) : List SRow :=
  rows.filter (fun r => decide (r.location_id = sid))

/-- `store_df['has_promotion'].sum()` for 0/1 indicator values: the number
of promoted rows. -/
def promoCount (rows : List SRow) : ℕ :=
  rows.countP (fun r => r.has_promotion)

/-- `treated_mean - control_mean` bookkeeping shared by the store slice. -/
def mkStoreEffect (store_df : List SRow) : SliceEffect :=
  let treated := store_df.filter (fun r => r.has_promotion)
  let control := store_df.filter (fun r => !r.has_promotion)
  let treated_mean := meanQ (treated.map (fun r => r.total_revenue))
  let control_mean := meanQ (control.map (fun r => r.total_revenue))
  { effect := treated_mean - control_mean,
    treated_mean := treated_mean,
    control_mean := control_mean,
    sample_size := store_df.length }

/-- Shallow embedding of the `promotion_by_store` loop of
`_analyze_heterogeneity`: iterate over the distinct stores, keep a store
only when `len(store_df) > 30 and store_df['has_promotion'].sum() > 5`,
and record the difference in means. -/
def promotionByStore (rows : List SRow) : List (ℕ × SliceEffect) :=
  (uniqueFirst (rows.map (fun r => r.location_id))).filterMap (fun sid =>
    if 30 < (storeRows rows sid).length ∧ 5 < promoCount (storeRows rows sid) then
      some (sid, mkStoreEffect (storeRows rows sid))
    else none)

/-- The fixed `weather_conditions = ['is_hot', 'is_rainy', 'is_mild']`. -/
inductive WCond where
  | is_hot
  | is_rainy
  | is_mild
deriving DecidableEq, Repr

/-- One panel row for the per-weather breakdown: the three weather indicator
columns (created by `_create_weather_features` as 0/1 indicators) plus the
promotion indicator and the outcome. -/
structure WRow where
  is_hot : Bool
  is_rainy : Bool
  is_mild : Bool
  has_promotion : Bool
  total_revenue : ℚ
deriving DecidableEq, Repr

/-- `df[condition] == 1` for an indicator column. -/
def condHolds (c : WCond) (r : WRow) : Bool :=
  match c with
  | .is_hot => r.is_hot
  | .is_rainy => r.is_rainy
  | .is_mild => r.is_mild

/-- `weather_df = df[df[condition] == 1]`. -/
def weatherSlice (rows : List WRow) (c : WCond) : List WRow :=
  rows.filter (condHolds c)

/-- `weather_df['has_promotion'].sum()` for 0/1 indicator values. -/
def promoCountW (rows : List WRow) : ℕ :=
  rows.countP (fun r => r.has_promotion)

/-- `treated_mean - control_mean` bookkeeping for a weather slice. -/
def mkWeatherEffect (weather_df : List WRow) : SliceEffect :=
  let treated := weather_df.filter (fun r => r.has_promotion)
  let control := weather_df.filter (fun r => !r.has_promotion)
  let treated_mean := meanQ (treated.map (fun r => r.total_revenue))
  let control_mean := meanQ (control.map (fun r => r.total_revenue))
  { effect := treated_mean - control_mean,
    treated_mean := treated_mean,
    control_mean := control_mean,
    sample_size := weather_df.length }

/-- Shallow embedding of the `promotion_by_weather` loop of
`_analyze_heterogeneity`: for each condition in the fixed list, keep the
slice only when `len(weather_df) > 20 and
weather_df['has_promotion'].sum() > 3`. -/
def promotionByWeather (rows : List WRow) : List (WCond × SliceEffect) :=
  [WCond.is_hot, WCond.is_rainy, WCond.is_mild].filterMap (fun c =>
    if 20 < (weatherSlice rows c).length ∧ 3 < promoCountW (weatherSlice rows c) then
      some (c, mkWeatherEffect (weatherSlice rows c))
    else none)

/-! ## State-column derivation in `run_complete_analysis`
(`fixed_causal_inference.py` lines 1055-1064). -/

/-- The character class `[A-Z]`. -/
def isAsciiUpper (c : Char) : Bool := 'A' ≤ c && c ≤ 'Z'

/-- `Series.str.extract(r'-([A-Z]{2})$')` on one cell: the capture group of
the end-anchored pattern, i.e. the last two characters when the string ends
in a hyphen followed by two uppercase letters, else no match. -/
def extractStateCode (cs : List Char) : Option (List Char) :=
  match cs.reverse with
  | c2 :: c1 :: h :: _ =>
      if h = '-' then
        if isAsciiUpper c1 && isAsciiUpper c2 then some [c1, c2] else none
      else none
  | _ => none

/-- One cell of the derived `state` column: the extracted code, with the
`.fillna('CA')` default for non-matching names. -/
def deriveState (cs : List Char) : List Char :=
  (extractStateCode cs).getD ['C', 'A']

/-- The whole derived column, applied to every `location_name` cell (the
branch of `run_complete_analysis` taken when `state` is absent and
`location_name` is present); total, so the run cannot fail here. -/
def deriveStateColumn (names : List (List Char)) : List (List Char) :=
  names.map deriveState

/-! ## Argument mutation by `create_all_features`
(`fixed_causal_inference.py` lines 375-401 and 452-493).

`create_all_features` copies `sales_df` (`df = sales_df.copy()`) and all
later column writes go to that copy, so the `sales_df` argument is never
written to.  `_create_weather_features`, however, writes into the
`weather_df` argument itself:
`weather_df['date'] = pd.to_datetime(weather_df['date'])` and, for each of
the eight weather columns present, `weather_df[col] =
pd.to_numeric(weather_df[col], errors='coerce')`.  We model a DataFrame as
a list of named columns and track the final states of the two arguments
(the returned engineered frame is built on the copy and on fresh
`merge`/`fillna` results, and is not needed for this frame property).

Those writes execute only if control reaches them: before the weather
stage, `create_all_features` reads `df['date']` (line 380) and
`_create_promotion_features` reads `total_discount`, `total_revenue` and
`bogo_orders` (lines 411-413) unconditionally, so a `sales_df` missing any
of those columns makes the call raise `KeyError` with `weather_df` still
untouched.  (`location_id` is read only inside the `try`/`except` quantile
block at lines 416-423, whose failure is caught and `low_performance`
defaulted to 0, so its absence does not stop execution; the calendar stage
reads only `date`.)  Likewise `_create_weather_features` reads
`weather_df['date']` before its first write, so a `weather_df` without a
`date` column raises there, unmutated.  Cell values are assumed to be the
shapes `load_integrated_data`/`get_weather_data` deliver — in particular
date cells hold parseable date text or timestamps; `pd.to_datetime`
raising on garbage text is outside the model, like the other declared
idealizations of this file. -/

/-- A DataFrame, as its list of named columns. -/
abbrev DF : Type := List (String × List PyVal)

/-- `col in df.columns`. -/
def hasCol (df : DF) (c : String) : Bool :=
  df.any (fun p => p.1 == c)

/-- `df[col]` (junk value `[]` when the column is absent; the source would
raise a `KeyError` there, and the theorems below assume presence where the
source requires it). -/
def getColD (df : DF) (c : String) : List PyVal :=
  ((df.find? (fun p => p.1 == c)).map Prod.snd).getD []

/-- In-place column assignment `df[col] = values`: replace the column when
present, append it otherwise. -/
def setCol (df : DF) (c : String) (vs : List PyVal) : DF :=
  if hasCol df c then df.map (fun p => if p.1 == c then (c, vs) else p)
  else df ++ [(c, vs)]

/-- `len(df)`: the number of rows. -/
def numRows (df : DF) : ℕ :=
  match df with
  | [] => 0
  | p :: _ => p.2.length

/-- The eight weather columns coerced by `_create_weather_features`. -/
def weatherNumericCols : List String :=
  ["temperature_max", "temperature_min", "temperature_mean",
   "precipitation", "rain", "snow", "wind_speed", "sunshine_hours"]

/-- The final state of the `weather_df` argument of
`_create_weather_features`: unchanged when empty (the early return at line
455 fires before any write) and unchanged when it has no `date` column
(the read `weather_df['date']` raises `KeyError` before the first write);
otherwise the `date` column is overwritten with its datetime coercion and
every present weather numeric column with its numeric coercion.  The later
`merge`/flag lines can still raise (e.g. a missing `state` or
`temperature_max`), but they come after these writes, so the mutated state
stands either way. -/
def createWeatherFeaturesWeatherArg (weather_df : DF) : DF :=
  if numRows weather_df = 0 then weather_df
  else if hasCol weather_df "date" then
    List.foldl
      (fun acc c =>
        if hasCol acc c then setCol acc c ((getColD acc c).map toNumeric)
        else acc)
      (setCol weather_df "date" ((getColD weather_df "date").map toDatetime))
      weatherNumericCols
  else weather_df

/-- The `sales_df` columns read unconditionally before the weather stage:
`date` at line 380, and `total_discount` / `total_revenue` / `bogo_orders`
in `_create_promotion_features` (lines 411-413). -/
def salesRequiredCols : List String :=
  ["date", "total_revenue", "total_discount", "bogo_orders"]

/-- Whether a `create_all_features` call on this `sales_df` executes past
the promotion/calendar stages and reaches `_create_weather_features`
(rather than raising `KeyError` on a missing column first). -/
def reachesWeatherStage (sales_df : DF) : Bool :=
  salesRequiredCols.all (fun c => hasCol sales_df c)

/-- The final states of the `(sales_df, weather_df)` arguments of
`create_all_features`: `sales_df` is copied and never written to, whether
the call completes or raises; `weather_df`, when passed, is mutated by
`_create_weather_features` exactly when execution reaches that stage, and
is untouched when the call raises earlier on a missing `sales_df`
column. -/
def createAllFeaturesArgs (sales_df : DF) (weather_df : Option DF) :
    DF × Option DF :=
  if reachesWeatherStage sales_df then
    (sales_df, weather_df.map createWeatherFeaturesWeatherArg)
  else
    (sales_df, weather_df)

/-! ## Demonstration panels used by the witnesses -/

/-- 25 treated rows (revenue 100) and 25 control rows (revenue 50), all
complete, so exactly 50 rows survive cleaning. -/
def demoFactorRows : List FactorRow :=
  List.replicate 25 ⟨.vnum 1, .vnum 100, [.vnum 0]⟩ ++
  List.replicate 25 ⟨.vnum 0, .vnum 50, [.vnum 0]⟩

/-- 49 complete rows: one short of the estimation gate. -/
def demoFactorRows49 : List FactorRow :=
  List.replicate 49 ⟨.vnum 1, .vnum 100, [.vnum 0]⟩

/-- An estimator oracle returning ATE 10 with CI (2, 5). -/
def demoFit : FitOutcome := .returns 10 (some (2, 5))

/-- Helper (not a claim theorem): past the sample-size gate, a non-raising
oracle produces a full effect result. -/
theorem analyze_returns_ok (rows : List FactorRow) (ate : ℚ)
    (ci : Option (ℚ × ℚ)) (h : ¬ (cleanRows rows).length < 50) :
    ∃ r, analyzeSingleFactorEconml rows (.returns ate ci) = .ok r := by
  unfold analyzeSingleFactorEconml
  rw [if_neg h]
  exact ⟨_, rfl⟩

/-! ## Theorems -/

/-- Claim C1: for every effect result returned on the non-error path of
`_analyze_single_factor_econml`, `significant` is `true` iff `0` is not
contained in the closed interval `[ci_lower, ci_upper]`. -/
theorem significant_iff_ci_excludes_zero (rows : List FactorRow)
    (fit : FitOutcome) (r : EffectResult)
    (h : analyzeSingleFactorEconml rows fit = .ok r) :
    r.significant = true ↔ ¬ (r.ci_lower ≤ 0 ∧ 0 ≤ r.ci_upper) := by
  unfold analyzeSingleFactorEconml at h
  by_cases hlt : (cleanRows rows).length < 50
  · rw [if_pos hlt] at h
    exact absurd h (by simp)
  · rw [if_neg hlt] at h
    cases fit with
    | raises msg => exact absurd h (by simp)
    | returns ate ci =>
        injection h with h'
        subst h'
        simp only [buildEffectResult, decide_eq_true_eq]

/-- Witness for C1 at a concrete 50-row panel and oracle. -/
theorem significant_iff_ci_excludes_zero_witness :
    ∃ r, analyzeSingleFactorEconml demoFactorRows demoFit = .ok r ∧
      (r.significant = true ↔ ¬ (r.ci_lower ≤ 0 ∧ 0 ≤ r.ci_upper)) := by
  obtain ⟨r, hok⟩ := analyze_returns_ok demoFactorRows 10 (some (2, 5))
    (by decide)
  exact ⟨r, hok, significant_iff_ci_excludes_zero demoFactorRows demoFit r hok⟩

/-- Claim C3: with fewer than 50 rows surviving numeric coercion and
`dropna`, `_analyze_single_factor_econml` returns the insufficient-data
error carrying the observed cleaned sample size (a constructor with no
effect estimate); with 50 or more cleaned rows it proceeds to the
estimation attempt, whose outcome is dictated by the external fit. -/
theorem insufficient_data_gate (rows : List FactorRow) (fit : FitOutcome) :
    ((cleanRows rows).length < 50 →
      analyzeSingleFactorEconml rows fit =
        .insufficientData (cleanRows rows).length) ∧
    (50 ≤ (cleanRows rows).length →
      (∀ msg, fit = .raises msg →
        analyzeSingleFactorEconml rows fit = .estimationFailure msg) ∧
      (∀ ate ci, fit = .returns ate ci →
        ∃ r, analyzeSingleFactorEconml rows fit = .ok r ∧
          r.sample_size = (cleanRows rows).length)) := by
  constructor
  · intro hlt
    unfold analyzeSingleFactorEconml
    rw [if_pos hlt]
  · intro hge
    have hlt : ¬ (cleanRows rows).length < 50 := not_lt.mpr hge
    constructor
    · intro msg hmsg
      subst hmsg
      unfold analyzeSingleFactorEconml
      rw [if_neg hlt]
    · intro ate ci hci
      subst hci
      unfold analyzeSingleFactorEconml
      rw [if_neg hlt]
      exact ⟨_, rfl, rfl⟩

/-- Witness for C3: 49 cleaned rows yield the error carrying 49; 50
cleaned rows yield a full effect result with sample size 50. -/
theorem insufficient_data_gate_witness :
    analyzeSingleFactorEconml demoFactorRows49 demoFit =
      .insufficientData 49 ∧
    (∃ r, analyzeSingleFactorEconml demoFactorRows demoFit = .ok r ∧
      r.sample_size = 50) := by
  constructor
  · have h := (insufficient_data_gate demoFactorRows49 demoFit).1 (by decide)
    rw [show (cleanRows demoFactorRows49).length = 49 from by decide] at h
    exact h
  · obtain ⟨r, hok, hn⟩ :=
      ((insufficient_data_gate demoFactorRows demoFit).2 (by decide)).2
        10 (some (2, 5)) rfl
    rw [show (cleanRows demoFactorRows).length = 50 from by decide] at hn
    exact ⟨r, hok, hn⟩

/-- Claim C5: when the fitted model's CI computation raises, the returned
interval is exactly `ATE - 1.96*|ATE|*0.1` to `ATE + 1.96*|ATE|*0.1`. -/
theorem fallback_ci (rows : List FactorRow) (ate : ℚ)
    (h : 50 ≤ (cleanRows rows).length) :
    ∃ r, analyzeSingleFactorEconml rows (.returns ate none) = .ok r ∧
      r.ci_lower = ate - 1.96 * |ate| * 0.1 ∧
      r.ci_upper = ate + 1.96 * |ate| * 0.1 := by
  unfold analyzeSingleFactorEconml
  rw [if_neg (not_lt.mpr h)]
  exact ⟨_, rfl, rfl, rfl⟩

/-- Witness for C5 at a concrete 50-row panel and ATE 10. -/
theorem fallback_ci_witness :
    ∃ r, analyzeSingleFactorEconml demoFactorRows (.returns 10 none) = .ok r ∧
      r.ci_lower = 10 - 1.96 * |(10 : ℚ)| * 0.1 ∧
      r.ci_upper = 10 + 1.96 * |(10 : ℚ)| * 0.1 :=
  fallback_ci demoFactorRows 10 (by decide)

/-- Claim C10 (implicit): on the fallback-CI path the significance flag is
determined by the ATE alone: nonzero ATE gives `significant = true`, zero
ATE gives the interval `[0, 0]` and `significant = false`. -/
theorem fallback_significance (rows : List FactorRow) (ate : ℚ)
    (r : EffectResult)
    (h : analyzeSingleFactorEconml rows (.returns ate none) = .ok r) :
    (ate ≠ 0 → r.significant = true) ∧ (ate = 0 → r.significant = false) := by
  unfold analyzeSingleFactorEconml at h
  by_cases hlt : (cleanRows rows).length < 50
  · rw [if_pos hlt] at h
    exact absurd h (by simp)
  · rw [if_neg hlt] at h
    injection h with h'
    subst h'
    constructor
    · intro hne
      simp only [buildEffectResult, Option.getD_none, fallbackCI,
        decide_eq_true_eq]
      rintro ⟨h1, h2⟩
      rcases lt_or_gt_of_ne hne with hneg | hpos
      · rw [abs_of_neg hneg] at h2
        nlinarith
      · rw [abs_of_pos hpos] at h1
        nlinarith
    · intro h0
      subst h0
      simp [buildEffectResult, fallbackCI]

/-- Witness for C10: ATE 1 on the fallback path gives `significant = true`
on a concrete 50-row panel. -/
theorem fallback_significance_witness :
    ∃ r, analyzeSingleFactorEconml demoFactorRows (.returns 1 none) = .ok r ∧
      r.significant = true := by
  obtain ⟨r, hok⟩ := analyze_returns_ok demoFactorRows 1 none (by decide)
  exact ⟨r, hok,
    (fallback_significance demoFactorRows 1 r hok).1 (by norm_num)⟩

/-! ## Interaction and heterogeneity theorems -/

/-- The synthetic 2x2 interaction panel from the claim: cell means
100 (0,0), 150 (1,0), 120 (0,1), 300 (1,1), six rows per cell. -/
def demoIRows : List IRow :=
  [⟨0, 0, 100⟩, ⟨0, 0, 100⟩, ⟨0, 0, 100⟩, ⟨0, 0, 100⟩, ⟨0, 0, 100⟩, ⟨0, 0, 100⟩,
   ⟨1, 0, 150⟩, ⟨1, 0, 150⟩, ⟨1, 0, 150⟩, ⟨1, 0, 150⟩, ⟨1, 0, 150⟩, ⟨1, 0, 150⟩,
   ⟨0, 1, 120⟩, ⟨0, 1, 120⟩, ⟨0, 1, 120⟩, ⟨0, 1, 120⟩, ⟨0, 1, 120⟩, ⟨0, 1, 120⟩,
   ⟨1, 1, 300⟩, ⟨1, 1, 300⟩, ⟨1, 1, 300⟩, ⟨1, 1, 300⟩, ⟨1, 1, 300⟩, ⟨1, 1, 300⟩]

/-- Claim C2: when all four (factor1, factor2) cells have count strictly
greater than 5, `_calculate_interaction_effect` returns the classic
two-factor contrast: each effect is the cell mean minus the (0,0) cell
mean, and `interaction_effect = combined_effect - factor1_main_effect -
factor2_main_effect`. -/
theorem interaction_decomposition (rows : List IRow) (name : String)
    (h00 : 5 < (interactionCell rows 0 0).length)
    (h10 : 5 < (interactionCell rows 1 0).length)
    (h01 : 5 < (interactionCell rows 0 1).length)
    (h11 : 5 < (interactionCell rows 1 1).length) :
    ∃ r, calculateInteractionEffect rows name = .ok r ∧
      r.factor1_main_effect =
        meanQ ((interactionCell rows 1 0).map (fun x => x.total_revenue)) -
        meanQ ((interactionCell rows 0 0).map (fun x => x.total_revenue)) ∧
      r.factor2_main_effect =
        meanQ ((interactionCell rows 0 1).map (fun x => x.total_revenue)) -
        meanQ ((interactionCell rows 0 0).map (fun x => x.total_revenue)) ∧
      r.combined_effect =
        meanQ ((interactionCell rows 1 1).map (fun x => x.total_revenue)) -
        meanQ ((interactionCell rows 0 0).map (fun x => x.total_revenue)) ∧
      r.interaction_effect =
        r.combined_effect - r.factor1_main_effect - r.factor2_main_effect := by
  unfold calculateInteractionEffect
  rw [if_pos ⟨h00, h10, h01, h11⟩]
  exact ⟨_, rfl, rfl, rfl, rfl, rfl⟩

/-- Witness for C2: the synthetic panel yields
`interaction_effect = (300-100) - (150-100) - (120-100) = 130`. -/
theorem interaction_decomposition_witness :
    ∃ r, calculateInteractionEffect demoIRows "demo" = .ok r ∧
      r.interaction_effect = 130 := by
  obtain ⟨r, hok, h1, h2, h3, h4⟩ :=
    interaction_decomposition demoIRows "demo"
      (by decide) (by decide) (by decide) (by decide)
  refine ⟨r, hok, ?_⟩
  rw [h4, h3, h2, h1]
  norm_num [demoIRows, interactionCell, meanQ, List.filter]

/-- Membership in `uniqueFirstAux`. -/
theorem mem_uniqueFirstAux (a : ℕ) : ∀ (l seen : List ℕ),
    a ∈ uniqueFirstAux l seen ↔ (a ∈ l ∧ a ∉ seen) := by
  intro l
  induction l with
  | nil => intro seen; simp [uniqueFirstAux]
  | cons b t ih =>
      intro seen
      by_cases hb : b ∈ seen
      · rw [uniqueFirstAux, if_pos hb, ih seen]
        constructor
        · rintro ⟨hl, hs⟩
          exact ⟨List.mem_cons_of_mem _ hl, hs⟩
        · rintro ⟨hbl, hs⟩
          rcases List.mem_cons.mp hbl with rfl | hl
          · exact absurd hb hs
          · exact ⟨hl, hs⟩
      · rw [uniqueFirstAux, if_neg hb]
        constructor
        · intro hmem
          rcases List.mem_cons.mp hmem with rfl | hrec
          · exact ⟨List.mem_cons_self _ _, hb⟩
          · obtain ⟨hl, hs⟩ := (ih (b :: seen)).mp hrec
            exact ⟨List.mem_cons_of_mem _ hl,
              fun h => hs (List.mem_cons_of_mem _ h)⟩
        · rintro ⟨hbl, hs⟩
          by_cases hab : a = b
          · exact hab ▸ List.mem_cons_self _ _
          · rcases List.mem_cons.mp hbl with rfl | hl
            · exact absurd rfl hab
            · refine List.mem_cons_of_mem _ ((ih (b :: seen)).mpr ⟨hl, ?_⟩)
              intro h
              rcases List.mem_cons.mp h with h1 | h2
              · exact hab h1
              · exact hs h2

/-- `uniqueFirst` has the same members as the original list. -/
theorem mem_uniqueFirst (a : ℕ) (l : List ℕ) :
    a ∈ uniqueFirst l ↔ a ∈ l := by
  rw [uniqueFirst, mem_uniqueFirstAux]
  simp

/-- Claim C6: a store appears in `promotion_by_store` iff it has strictly
more than 30 rows and strictly more than 5 promoted rows; stores failing a
threshold are omitted entirely. -/
theorem store_gating (rows : List SRow) (sid : ℕ) :
    (∃ e, (sid, e) ∈ promotionByStore rows) ↔
      (30 < (storeRows rows sid).length ∧
       5 < promoCount (storeRows rows sid)) := by
  constructor
  · rintro ⟨e, he⟩
    rw [promotionByStore, List.mem_filterMap] at he
    obtain ⟨a, _, hfa⟩ := he
    by_cases hc : 30 < (storeRows rows a).length ∧ 5 < promoCount (storeRows rows a)
    · rw [if_pos hc] at hfa
      injection hfa with h'
      have ha : a = sid := congrArg Prod.fst h'
      exact ha ▸ hc
    · rw [if_neg hc] at hfa
      exact absurd hfa (by simp)
  · rintro hc
    have hne : storeRows rows sid ≠ [] := by
      intro h0
      rw [h0] at hc
      simp at hc
    obtain ⟨r, hr⟩ := List.exists_mem_of_ne_nil _ hne
    have hr2 := List.mem_filter.mp hr
    have hsid : r.location_id = sid := by simpa using hr2.2
    refine ⟨mkStoreEffect (storeRows rows sid), ?_⟩
    rw [promotionByStore, List.mem_filterMap]
    refine ⟨sid, ?_, by rw [if_pos hc]⟩
    rw [mem_uniqueFirst]
    exact List.mem_map.mpr ⟨r, hr2.1, hsid⟩

/-- A 21-rows-all-hot demonstration panel: 4 promoted rows (revenue 10)
and 17 non-promoted rows (revenue 5). -/
def demoWRows : List WRow :=
  List.replicate 4 ⟨true, false, false, true, 10⟩ ++
  List.replicate 17 ⟨true, false, false, false, 5⟩

/-- A 20-rows-all-hot panel with 4 promoted rows: it meets the claim's
"at least 20 rows / at least 3 promoted" reading but not the code's strict
thresholds. -/
def cexWRows : List WRow :=
  List.replicate 4 ⟨true, false, false, true, 10⟩ ++
  List.replicate 16 ⟨true, false, false, false, 5⟩

/-- Counterexample for C7 as stated: a slice with exactly 20 rows (4 of
them promoted) satisfies "at least 20 rows and at least 3 promoted", yet
the `promotion_by_weather` result is empty: the code requires strictly
more than 20 rows and strictly more than 3 promoted. -/
theorem weather_gate_strict_cex :
    20 ≤ (weatherSlice cexWRows .is_hot).length ∧
    3 ≤ promoCountW (weatherSlice cexWRows .is_hot) ∧
    promotionByWeather cexWRows = [] := by
  refine ⟨by decide, by decide, by decide⟩

/-- Claim C7 (amended): for each weather flag in the fixed set, if the
rows where the flag holds number strictly more than 20 and strictly more
than 3 of them are promoted, the result contains that condition with
effect equal to the promoted-rows mean revenue minus the non-promoted-rows
mean revenue within the slice. -/
theorem weather_slice_inclusion (rows : List WRow) (c : WCond)
    (h1 : 20 < (weatherSlice rows c).length)
    (h2 : 3 < promoCountW (weatherSlice rows c)) :
    (c, mkWeatherEffect (weatherSlice rows c)) ∈ promotionByWeather rows ∧
    (mkWeatherEffect (weatherSlice rows c)).effect =
      meanQ (((weatherSlice rows c).filter (fun r => r.has_promotion)).map
        (fun r => r.total_revenue)) -
      meanQ (((weatherSlice rows c).filter (fun r => !r.has_promotion)).map
        (fun r => r.total_revenue)) := by
  refine ⟨?_, rfl⟩
  rw [promotionByWeather, List.mem_filterMap]
  refine ⟨c, by cases c <;> decide, by rw [if_pos ⟨h1, h2⟩]⟩

/-- Witness for C7 (amended) at the 21-row all-hot panel with 4 promoted
rows. -/
theorem weather_slice_inclusion_witness :
    (WCond.is_hot, mkWeatherEffect (weatherSlice demoWRows .is_hot)) ∈
      promotionByWeather demoWRows ∧
    (mkWeatherEffect (weatherSlice demoWRows .is_hot)).effect =
      meanQ (((weatherSlice demoWRows .is_hot).filter
        (fun r => r.has_promotion)).map (fun r => r.total_revenue)) -
      meanQ (((weatherSlice demoWRows .is_hot).filter
        (fun r => !r.has_promotion)).map (fun r => r.total_revenue)) :=
  weather_slice_inclusion demoWRows .is_hot (by decide) (by decide)

/-! ## State-derivation theorem -/

/-- Reduction of `extractStateCode` once the last three characters are
known. -/
theorem extractStateCode_eq (cs : List Char) (c2 c1 h : Char)
    (rest : List Char) (hrev : cs.reverse = c2 :: c1 :: h :: rest) :
    extractStateCode cs =
      if h = '-' then
        if isAsciiUpper c1 && isAsciiUpper c2 then some [c1, c2] else none
      else none := by
  unfold extractStateCode
  rw [hrev]

/-- `extractStateCode` on a string of fewer than three characters. -/
theorem extractStateCode_short (cs : List Char)
    (hlen : cs.reverse.length < 3) : extractStateCode cs = none := by
  unfold extractStateCode
  rcases hrev : cs.reverse with _ | ⟨a, _ | ⟨b, _ | ⟨c, rest⟩⟩⟩
  · rfl
  · rfl
  · rfl
  · rw [hrev] at hlen
    simp at hlen
    omega

/-- Claim C8: when the `state` column is absent, every `location_name`
ending in a hyphen followed by two uppercase letters yields that two-letter
code as its derived `state`, and every `location_name` with no such
trailing region code yields the default `"CA"`; `deriveState` (and hence
`deriveStateColumn`) is total, so the run cannot fail here. -/
theorem deriveState_spec (cs : List Char) :
    (∃ pre c1 c2, cs = pre ++ ['-', c1, c2] ∧ isAsciiUpper c1 = true ∧
      isAsciiUpper c2 = true ∧ deriveState cs = [c1, c2]) ∨
    ((¬ ∃ pre c1 c2, cs = pre ++ ['-', c1, c2] ∧ isAsciiUpper c1 = true ∧
      isAsciiUpper c2 = true) ∧ deriveState cs = ['C', 'A']) := by
  rcases hrev : cs.reverse with _ | ⟨c2, _ | ⟨c1, _ | ⟨h3, rest⟩⟩⟩
  · right
    refine ⟨?_, ?_⟩
    · rintro ⟨pre, d1, d2, hcs2, -, -⟩
      have hlen : cs.length = pre.length + 3 := by simp [hcs2]
      have hlen0 : cs.length = 0 := by
        rw [← List.length_reverse, hrev]
        rfl
      omega
    · unfold deriveState
      rw [extractStateCode_short cs (by simp [hrev])]
      rfl
  · right
    refine ⟨?_, ?_⟩
    · rintro ⟨pre, d1, d2, hcs2, -, -⟩
      have hlen : cs.length = pre.length + 3 := by simp [hcs2]
      have hlen1 : cs.length = 1 := by
        rw [← List.length_reverse, hrev]
        rfl
      omega
    · unfold deriveState
      rw [extractStateCode_short cs (by simp [hrev])]
      rfl
  · right
    refine ⟨?_, ?_⟩
    · rintro ⟨pre, d1, d2, hcs2, -, -⟩
      have hlen : cs.length = pre.length + 3 := by simp [hcs2]
      have hlen2 : cs.length = 2 := by
        rw [← List.length_reverse, hrev]
        rfl
      omega
    · unfold deriveState
      rw [extractStateCode_short cs (by simp [hrev])]
      rfl
  · have hcs : cs = rest.reverse ++ [h3, c1, c2] := by
      have h := congrArg List.reverse hrev
      rw [List.reverse_reverse] at h
      rw [h]
      simp
    by_cases hdash : h3 = '-'
    · subst hdash
      by_cases hup : (isAsciiUpper c1 && isAsciiUpper c2) = true
      · left
        obtain ⟨hu1, hu2⟩ : isAsciiUpper c1 = true ∧ isAsciiUpper c2 = true := by
          simpa using hup
        refine ⟨rest.reverse, c1, c2, hcs, hu1, hu2, ?_⟩
        unfold deriveState
        rw [extractStateCode_eq cs c2 c1 _ rest hrev, if_pos rfl, if_pos hup]
        rfl
      · right
        refine ⟨?_, ?_⟩
        · rintro ⟨pre, d1, d2, hcs2, hu1, hu2⟩
          have h : cs.reverse = d2 :: d1 :: '-' :: pre.reverse := by
            rw [hcs2]
            simp
          rw [hrev] at h
          injection h with e1 h
          injection h with e2 h
          subst e1
          subst e2
          exact hup (by simp [hu1, hu2])
        · unfold deriveState
          rw [extractStateCode_eq cs c2 c1 _ rest hrev, if_pos rfl,
            if_neg hup]
          rfl
    · right
      refine ⟨?_, ?_⟩
      · rintro ⟨pre, d1, d2, hcs2, -, -⟩
        have h : cs.reverse = d2 :: d1 :: '-' :: pre.reverse := by
          rw [hcs2]
          simp
        rw [hrev] at h
        injection h with e1 h
        injection h with e2 h
        injection h with e3 h
        exact hdash e3
      · unfold deriveState
        rw [extractStateCode_eq cs c2 c1 h3 rest hrev, if_neg hdash]
        rfl

/-! ## Argument-mutation theorems -/

/-- A one-row sales frame carrying every column the stages before (and
including) the weather merge read — `date`, `total_revenue`,
`total_discount`, `bogo_orders`, `location_id`, `state` — with
already-parsed date and numeric cells, so a `create_all_features` call on
it raises nowhere and reaches `_create_weather_features`. -/
def cexSalesDF : DF :=
  [("date", [.vdate "2024-01-01"]),
   ("total_revenue", [.vnum 100]),
   ("total_discount", [.vnum 5]),
   ("bogo_orders", [.vnum 1]),
   ("location_id", [.vnum 1]),
   ("state", [.vstr "CA"])]

/-- A one-row weather frame as `get_weather_data` hands it over: the
`date` column still holds date text, `state` and all eight numeric columns
present (so the merge and the flag lines after the writes succeed and the
whole call completes). -/
def cexWeatherDF : DF :=
  [("date", [.vstr "2024-01-01"]),
   ("state", [.vstr "CA"]),
   ("temperature_max", [.vnum 20]),
   ("temperature_min", [.vnum 10]),
   ("temperature_mean", [.vnum 15]),
   ("precipitation", [.vnum 0]),
   ("rain", [.vnum 0]),
   ("snow", [.vnum 0]),
   ("wind_speed", [.vnum 5]),
   ("sunshine_hours", [.vnum 9])]

/-- Counterexample for C9 as stated: on a fully-stocked sales frame the
call reaches `_create_weather_features` and completes, and the
`weather_df` argument is mutated in place — its `date` column is
overwritten with the datetime coercion — so the arguments are not both
unchanged. -/
theorem create_all_features_mutates_weather :
    (createAllFeaturesArgs cexSalesDF (some cexWeatherDF)).2 ≠
      some cexWeatherDF := by
  decide

/-- Mapping the column-replacement function of `setCol` over entries whose
matching rows already carry the new values is the identity. -/
theorem map_setFun_self (t : DF) (c : String) (vs : List PyVal)
    (h : ∀ p ∈ t, p.1 = c → p.2 = vs) :
    t.map (fun p => if p.1 == c then (c, vs) else p) = t := by
  induction t with
  | nil => rfl
  | cons p t ih =>
      simp only [List.map_cons]
      have hp : (if (p.1 == c) = true then (c, vs) else p) = p := by
        by_cases hc : p.1 = c
        · rw [if_pos (by simp [hc]), ← hc, ← h p (List.mem_cons_self p t) hc]
        · rw [if_neg (by simp [hc])]
      rw [hp, ih (fun q hq hqc => h q (List.mem_cons_of_mem _ hq) hqc)]

/-- With pairwise-distinct column names, `getColD` returns the values of
the member entry. -/
theorem getColD_eq_of_mem (w : DF) (p : String × List PyVal) (hp : p ∈ w)
    (hnd : (w.map Prod.fst).Nodup) : getColD w p.1 = p.2 := by
  induction w with
  | nil => cases hp
  | cons q t ih =>
      rw [List.map_cons, List.nodup_cons] at hnd
      rcases List.mem_cons.mp hp with rfl | hpt
      · unfold getColD
        rw [List.find?_cons_of_pos _ (by simp)]
        rfl
      · have hne : q.1 ≠ p.1 := by
          intro he
          exact hnd.1 (he ▸ List.mem_map.mpr ⟨p, hpt, rfl⟩)
        unfold getColD
        rw [List.find?_cons_of_neg _ (by simp [hne])]
        exact ih hpt hnd.2

/-- Writing back a column's own values is the identity on frames with
pairwise-distinct column names. -/
theorem setCol_self (w : DF) (c : String) (h : hasCol w c = true)
    (hnd : (w.map Prod.fst).Nodup) : setCol w c (getColD w c) = w := by
  unfold setCol
  rw [if_pos h]
  apply map_setFun_self
  intro p hp hpc
  rw [← hpc]
  exact (getColD_eq_of_mem w p hp hnd).symm

/-- The numeric-coercion loop of `_create_weather_features` leaves a frame
unchanged when every present listed column is already numeric. -/
theorem foldl_coerce_id (w : DF) (hnd : (w.map Prod.fst).Nodup)
    (cols : List String)
    (hnum : ∀ c ∈ cols, ∀ v ∈ getColD w c, toNumeric v = v) :
    List.foldl
      (fun acc c =>
        if hasCol acc c then setCol acc c ((getColD acc c).map toNumeric)
        else acc)
      w cols = w := by
  induction cols with
  | nil => rfl
  | cons c cs ih =>
      have hstep :
          (if hasCol w c then setCol w c ((getColD w c).map toNumeric)
           else w) = w := by
        by_cases h : hasCol w c = true
        · rw [if_pos h]
          have hmap : (getColD w c).map toNumeric = getColD w c := by
            have h1 : (getColD w c).map toNumeric = (getColD w c).map id :=
              List.map_congr_left
                (fun v hv => hnum c (List.mem_cons_self _ _) v hv)
            rw [h1, List.map_id]
          rw [hmap]
          exact setCol_self w c h hnd
        · rw [if_neg h]
      rw [List.foldl_cons, hstep]
      exact ih (fun c2 hc2 v hv => hnum c2 (List.mem_cons_of_mem _ hc2) v hv)

/-- Claim C9 (amended): `create_all_features` never mutates `sales_df`
(it operates on a copy), and it leaves `weather_df` unchanged exactly on
frames that are already coerced: when the `date` column's cells are already
timestamps and every present weather numeric column's cells are fixed
points of the numeric coercion.  (The counterexample above shows the
unamended claim fails: a textual `date` column is coerced in place.) -/
theorem create_all_features_args_pure_when_coerced (sales_df : DF) (w : DF)
    (hnd : (w.map Prod.fst).Nodup)
    (hdc : hasCol w "date" = true)
    (hdate : ∀ v ∈ getColD w "date", toDatetime v = v)
    (hnum : ∀ c ∈ weatherNumericCols, ∀ v ∈ getColD w c, toNumeric v = v) :
    createAllFeaturesArgs sales_df (some w) = (sales_df, some w) := by
  have hw : createWeatherFeaturesWeatherArg w = w := by
    unfold createWeatherFeaturesWeatherArg
    by_cases h0 : numRows w = 0
    · rw [if_pos h0]
    · rw [if_neg h0]
      rw [if_pos hdc]
      have hmap : (getColD w "date").map toDatetime = getColD w "date" := by
        have h1 : (getColD w "date").map toDatetime =
            (getColD w "date").map id :=
          List.map_congr_left (fun v hv => hdate v hv)
        rw [h1, List.map_id]
      rw [hmap, setCol_self w "date" hdc hnd]
      exact foldl_coerce_id w hnd weatherNumericCols hnum
  unfold createAllFeaturesArgs
  simp only [Option.map_some']
  rw [hw]
  split <;> rfl

/-- An already-coerced one-row weather frame for the C9 witness: the
`date` cell is a timestamp and every numeric cell a number, so both
coercions are identities on it. -/
def demoWeatherDF : DF :=
  [("date", [.vdate "2024-01-01"]),
   ("state", [.vstr "CA"]),
   ("temperature_max", [.vnum 20]),
   ("temperature_min", [.vnum 10]),
   ("temperature_mean", [.vnum 15]),
   ("precipitation", [.vnum 0]),
   ("rain", [.vnum 0]),
   ("snow", [.vnum 0]),
   ("wind_speed", [.vnum 5]),
   ("sunshine_hours", [.vnum 9])]

/-- Witness for C9 (amended): on the fully-stocked sales frame and an
already-coerced weather frame, the call runs through the weather stage and
neither argument changes. -/
theorem create_all_features_args_pure_witness :
    createAllFeaturesArgs cexSalesDF (some demoWeatherDF) =
      (cexSalesDF, some demoWeatherDF) :=
  create_all_features_args_pure_when_coerced cexSalesDF demoWeatherDF
    (by decide) (by decide) (by decide) (by decide)

end UmeBot
